import Mathlib

/-!
Verification of the Paddos safety-map core: a shallow embedding of
`src/safety_engine.py` (distance, place fetching, safety-score aggregation)
and `src/app.py` (the POST safety endpoint and the per-session monitoring
registry), together with theorems settling the stated properties.

Numbers that Python represents as floats are modelled as rationals (for the
scoring engine, whose logic is comparisons and field arithmetic) and as real
numbers (for the haversine distance, which uses trigonometry).  External
effects (the clock, the six amenity fetches, an unexpected internal fault)
are supplied through an explicit environment record.
-/

namespace Paddos

/-! ## Python `round` (banker's rounding, round half to even) -/

/-- Python's `round` on an exactly-representable value: round to the nearest
integer, ties going to the even integer. -/
def roundHalfEven (x : ℚ) : ℤ :=
  if x - ⌊x⌋ < 1/2 then ⌊x⌋
  else if 1/2 < x - ⌊x⌋ then ⌊x⌋ + 1
  else if ⌊x⌋ % 2 = 0 then ⌊x⌋ else ⌊x⌋ + 1

/-- Python's `round(x, nd)`: round to `nd` decimal places, half to even. -/
def pyRound (x : ℚ) (nd : ℕ) : ℚ := (roundHalfEven (x * 10 ^ nd) : ℚ) / 10 ^ nd

lemma roundHalfEven_nonneg {x : ℚ} (hx : 0 ≤ x) : 0 ≤ roundHalfEven x := by
  have h0 : (0 : ℤ) ≤ ⌊x⌋ := Int.floor_nonneg.mpr hx
  unfold roundHalfEven
  split_ifs <;> omega

lemma roundHalfEven_le {x : ℚ} {n : ℤ} (h : x ≤ n) : roundHalfEven x ≤ n := by
  have hfl : ⌊x⌋ ≤ n := by
    calc ⌊x⌋ ≤ ⌊(n : ℚ)⌋ := Int.floor_le_floor h
    _ = n := Int.floor_intCast n
  unfold roundHalfEven
  split_ifs with h1 h2 h3
  · exact hfl
  · -- half or more above the floor, so the floor is strictly below `n`
    rcases lt_or_eq_of_le hfl with hlt | heq
    · omega
    · exfalso
      have : x - ⌊x⌋ ≤ 0 := by
        rw [heq]
        exact sub_nonpos.mpr h
      linarith
  · exact hfl
  · rcases lt_or_eq_of_le hfl with hlt | heq
    · omega
    · exfalso
      have : x - ⌊x⌋ ≤ 0 := by
        rw [heq]
        exact sub_nonpos.mpr h
      linarith

lemma pyRound_nonneg {x : ℚ} (hx : 0 ≤ x) (nd : ℕ) : 0 ≤ pyRound x nd := by
  unfold pyRound
  apply div_nonneg _ (by positivity)
  exact_mod_cast roundHalfEven_nonneg (by positivity)

lemma pyRound_le {x : ℚ} {n : ℤ} (h : x ≤ n) (nd : ℕ) : pyRound x nd ≤ n := by
  unfold pyRound
  rw [div_le_iff₀ (by positivity)]
  have hx : x * 10 ^ nd ≤ ((n * 10 ^ nd : ℤ) : ℚ) := by
    push_cast
    have hp : (0 : ℚ) < 10 ^ nd := by positivity
    nlinarith
  have := roundHalfEven_le hx
  calc ((roundHalfEven (x * 10 ^ nd) : ℚ)) ≤ ((n * 10 ^ nd : ℤ) : ℚ) := by exact_mod_cast this
  _ = (n : ℚ) * 10 ^ nd := by push_cast; ring

/-- Character-wise upper-casing, modelling Python's `str.upper()` for the
ASCII country codes used here. -/
def pyUpper (s : String) : String := String.mk (s.data.map Char.toUpper)

/-! ## Data model of the scoring engine (`src/safety_engine.py`)

A fetched place record, as built by `get_nearby_places`. -/

structure Place where
  name : String
  type : String
  distance : ℚ
  latitude : ℚ
  longitude : ℚ
deriving DecidableEq, Repr

/-- The pair returned by one `get_nearby_places` call: the records and the
success flag. -/
structure FetchResult where
  places : List Place
  success : Bool
deriving DecidableEq, Repr

/-- The effectful context of one `calculate_safety_score` call: the local
hour of day, the six fetch outcomes, the wall-clock timestamp string, and an
optional unexpected internal fault (the exception caught by the outermost
`except` handler, carrying its message). -/
structure Env where
  hour : ℕ
  hospitals : FetchResult
  police : FetchResult
  busStops : FetchResult
  trains : FetchResult
  activity : FetchResult
  infra : FetchResult
  timestamp : String
  fault : Option String
deriving DecidableEq, Repr

structure Breakdown where
  temporal_risk : ℚ
  emergency_proximity : ℚ
  population_density : ℚ
  infrastructure : ℚ
deriving DecidableEq, Repr

structure ServiceStatus where
  overall : String
  status_color : String
  unavailable : List String
  message : Option String
deriving DecidableEq, Repr

structure NearestMap where
  hospital : Option Place
  police : Option Place
  bus_stop : Option Place
  train_station : Option Place
deriving DecidableEq, Repr

structure AllPlaces where
  hospitals : List Place
  police_stations : List Place
  bus_stops : List Place
  train_stations : List Place
deriving DecidableEq, Repr

structure Stats where
  activity_count : ℕ
  infrastructure_count : ℕ
  emergency_services_density : ℚ
deriving DecidableEq, Repr

structure SafetyReport where
  score : ℚ
  rating : String
  color : String
  confidence : ℚ
  timestamp : String
  breakdown : Breakdown
  time_period : String
  service_status : ServiceStatus
  nearest : NearestMap
  all_places : AllPlaces
  stats : Stats
deriving DecidableEq, Repr

/-! ## Constant tables of `src/safety_engine.py` -/

/-- The `COUNTRY_BASELINES` dict: per-country multiplier; `.get` semantics are
modelled by returning `none` for absent keys. -/
def COUNTRY_BASELINES (c : String) : Option ℚ :=
  if c = "NO" then some 1.18 else if c = "SE" then some 1.16
  else if c = "DK" then some 1.16 else if c = "FI" then some 1.17
  else if c = "CH" then some 1.15 else if c = "CA" then some 1.11
  else if c = "DE" then some 1.10 else if c = "AU" then some 1.09
  else if c = "GB" then some 1.08 else if c = "US" then some 1.04
  else if c = "IN" then some 0.88 else if c = "BR" then some 0.89
  else if c = "CN" then some 0.94 else if c = "MX" then some 0.84
  else if c = "DEFAULT" then some 1.00 else none

/-- The `WEIGHTS` dict of the four component weights. -/
def WEIGHTS (k : String) : ℚ :=
  if k = "temporal_risk" then 0.28
  else if k = "emergency_proximity" then 0.27
  else if k = "population_density" then 0.25
  else if k = "infrastructure" then 0.20
  else 0

/-! ## The pieces of `calculate_safety_score`, in source order -/

/-- Time-based risk: the first `if/elif/else` of `calculate_safety_score`,
returning `(time_score, period)`. -/
def timeBand (hour : ℕ) : ℚ × String :=
  if 9 ≤ hour ∧ hour ≤ 18 then (88, toString hour ++ ":00 - Low Risk")
  else if (7 ≤ hour ∧ hour < 9) ∨ (18 < hour ∧ hour ≤ 20) then
    (62, toString hour ++ ":00 - Moderate Risk")
  else (25, toString hour ++ ":00 - High Risk")

/-- Python `min(p['distance'] for p in l)` over a list of places (`none` iff empty). -/
def minDistance : List Place → Option ℚ
  | [] => none
  | p :: ps =>
    match minDistance ps with
    | none => some p.distance
    | some m => some (min p.distance m)

/-- Emergency-proximity component: banded by the nearest hospital/police
distance, `22` when no emergency place was found. -/
def emergScore (emergency : List Place) : ℚ :=
  match minDistance emergency with
  | some min_dist =>
    if min_dist ≤ 0.8 then 96
    else if min_dist ≤ 1.5 then 85
    else if min_dist ≤ 2.5 then 70
    else if min_dist ≤ 4.0 then 50
    else 30
  | none => 22

/-- Population-density component: banded by the activity count, then
multiplied by `0.7` at night (`hour < 6 or hour > 22`). -/
def popScore (act_count hour : ℕ) : ℚ :=
  (if 60 ≤ act_count then 92
   else if 40 ≤ act_count then 82
   else if 25 ≤ act_count then 68
   else if 12 ≤ act_count then 50
   else 35) * (if hour < 6 ∨ 22 < hour then 0.7 else 1)

/-- Infrastructure component: banded by the summed lamp/bus/train count,
with a daytime window `6 <= hour <= 19`. -/
def infraScore (infra_count hour : ℕ) : ℚ :=
  if 6 ≤ hour ∧ hour ≤ 19 then (if 20 ≤ infra_count then 80 else 65)
  else if 20 ≤ infra_count then 85
  else if 10 ≤ infra_count then 60
  else 30

/-- The weighted raw score of step "Calculate weighted score". -/
def rawScore (env : Env) : ℚ :=
  (timeBand env.hour).1 * WEIGHTS "temporal_risk" +
    emergScore (env.hospitals.places ++ env.police.places) * WEIGHTS "emergency_proximity" +
    popScore env.activity.places.length env.hour * WEIGHTS "population_density" +
    infraScore (env.infra.places.length + env.busStops.places.length +
      env.trains.places.length) env.hour * WEIGHTS "infrastructure"

/-- Lookup `COUNTRY_BASELINES.get(country_code.upper(), COUNTRY_BASELINES['DEFAULT'])`. -/
def multiplierOf (country_code : String) : ℚ :=
  (COUNTRY_BASELINES (pyUpper country_code)).getD ((COUNTRY_BASELINES "DEFAULT").getD 0)

/-- Clamp `min(max(raw_score * multiplier, 0), 100)`. -/
def finalScore (env : Env) (country_code : String) : ℚ :=
  min (max (rawScore env * multiplierOf country_code) 0) 100

/-- The rating / color bands on the final score. -/
def ratingColor (final_score : ℚ) : String × String :=
  if 75 ≤ final_score then ("SAFE", "#4CAF50")
  else if 55 ≤ final_score then ("MODERATE", "#FFC107")
  else if 35 ≤ final_score then ("CAUTION", "#FF9800")
  else ("HIGH RISK", "#F44336")

/-- Count `sum([hosp_success, police_success, activity_success, infra_success])`. -/
def successCount (env : Env) : ℕ :=
  (if env.hospitals.success then 1 else 0) + (if env.police.success then 1 else 0) +
    (if env.activity.success then 1 else 0) + (if env.infra.success then 1 else 0)

/-- Confidence `round(data_quality * 85, 1)` with `data_quality = successCount / 4`. -/
def confidenceOf (env : Env) : ℚ := pyRound ((successCount env : ℚ) / 4 * 85) 1

/-- The `unavailable` list built in source order. -/
def unavailableOf (env : Env) : List String :=
  (if env.hospitals.success = false ∧ env.police.success = false
    then ["emergency_services"] else []) ++
  (if env.activity.success = false then ["activity_data"] else []) ++
  (if env.infra.success = false then ["infrastructure"] else [])

/-- The short-circuit report returned when
`(hosp_success or police_success) and activity_success` is false. -/
def degradedReport (env : Env) (period : String) : SafetyReport where
  score := 0
  rating := "SERVICE UNAVAILABLE"
  color := "#999999"
  confidence := 0
  timestamp := env.timestamp
  breakdown := ⟨0, 0, 0, 0⟩
  time_period := period
  service_status :=
    { overall := "Sorry, we don\x27t have services running for this location"
      status_color := "#f44336"
      unavailable := ["emergency_services", "activity_data"]
      message := some "Paddos is not available in this area yet. We\x27re working to expand our coverage!" }
  nearest := ⟨none, none, none, none⟩
  all_places := ⟨[], [], [], []⟩
  stats := ⟨0, 0, 0⟩

/-- The report built by the outermost `except` handler from the caught
exception's message. -/
def errorReport (env : Env) (e : String) : SafetyReport where
  score := 0
  rating := "ERROR"
  color := "#999999"
  confidence := 0
  timestamp := env.timestamp
  breakdown := ⟨0, 0, 0, 0⟩
  time_period := toString env.hour ++ ":00"
  service_status :=
    { overall := "System error occurred"
      status_color := "#f44336"
      unavailable := ["all"]
      message := some ("Error: " ++ e.take 100) }
  nearest := ⟨none, none, none, none⟩
  all_places := ⟨[], [], [], []⟩
  stats := ⟨0, 0, 0⟩

/-- Function `calculate_safety_score(lat, lon, country_code)`.  The fetched data, the
clock and any unexpected internal fault come from `env`; `lat`/`lon` only
feed the fetches (already reflected in `env`) and logging. -/
def calculate_safety_score (env : Env) (lat lon : ℚ) (country_code : String) :
    SafetyReport :=
  match env.fault with
  | some e => errorReport env e
  | none =>
    let period := (timeBand env.hour).2
    if ((env.hospitals.success || env.police.success) && env.activity.success) = false
    then degradedReport env period
    else
      let hospitals := env.hospitals.places
      let police := env.police.places
      let bus_stops := env.busStops.places
      let trains := env.trains.places
      let emergency := hospitals ++ police
      let act_count := env.activity.places.length
      let infra_count := env.infra.places.length + bus_stops.length + trains.length
      let final_score := finalScore env country_code
      let unavailable := unavailableOf env
      { score := pyRound final_score 1
        rating := (ratingColor final_score).1
        color := (ratingColor final_score).2
        confidence := confidenceOf env
        timestamp := env.timestamp
        breakdown :=
          { temporal_risk := pyRound (timeBand env.hour).1 1
            emergency_proximity := pyRound (emergScore emergency) 1
            population_density := pyRound (popScore act_count env.hour) 1
            infrastructure := pyRound (infraScore infra_count env.hour) 1 }
        time_period := period
        service_status :=
          { overall :=
              if unavailable = [] then "All services operational"
              else "Limited data: " ++ String.intercalate ", " unavailable
            status_color := if unavailable = [] then "#4CAF50" else "#FF9800"
            unavailable := unavailable
            message := none }
        nearest :=
          { hospital := hospitals.head?
            police := police.head?
            bus_stop := bus_stops.head?
            train_station := trains.head? }
        all_places :=
          { hospitals := hospitals.take 5
            police_stations := police.take 5
            bus_stops := bus_stops.take 10
            train_stations := trains.take 5 }
        stats :=
          { activity_count := act_count
            infrastructure_count := infra_count
            emergency_services_density :=
              if emergency = [] then 0 else pyRound ((emergency.length : ℚ) / 25) 2 } }

/-! ## `src/app.py`: the POST safety endpoint -/

/-- The parsed JSON body of a `POST /api/safety` request; `data.get(...)`
yields `none` for a missing key. -/
structure SafetyRequest where
  latitude : Option ℚ
  longitude : Option ℚ
  country_code : Option String
deriving DecidableEq, Repr

/-- The endpoint's observable outcomes: a 200 payload, a 400 rejection with
its error string, or the 500 branch of the handler's own `except`. -/
inductive ApiSafetyResult where
  | success (report : SafetyReport)
  | badRequest (error : String)
  | serverError (error : String)
deriving DecidableEq, Repr

/-- The `api_safety` view function.  Python's `if not (lat and lon)` tests
truthiness, so a present coordinate equal to `0` fails it exactly like a
missing one. -/
def api_safety (env : Env) (req : SafetyRequest) : ApiSafetyResult :=
  match req.latitude, req.longitude with
  | some lat, some lon =>
    if lat = 0 ∨ lon = 0 then .badRequest "Invalid coordinates"
    else if ¬ (-90 ≤ lat ∧ lat ≤ 90 ∧ -180 ≤ lon ∧ lon ≤ 180) then
      .badRequest "Coordinates out of range"
    else .success (calculate_safety_score env lat lon (req.country_code.getD "XX"))
  | _, _ => .badRequest "Invalid coordinates"

/-! ## `src/app.py`: the monitoring-session registry

The shared state is `active_sessions` (a dict guarded by `session_lock`)
plus the set of live `monitor_location` threads.  Each lock-protected
critical section of the Python code is one atomic transition; the thread
set is a multiset of session ids (one entry per live thread bound to that
id). -/

structure SessionRec where
  active : Bool
  latitude : ℚ
  longitude : ℚ
  country_code : String
  update_count : ℕ
deriving DecidableEq, Repr

/-- The registry state: the `active_sessions` dict (as an association list
with unique keys) and the multiset of live monitor threads, keyed by the
session id each one was started for. -/
structure RegState where
  sessions : List (String × SessionRec)
  tasks : List String
deriving DecidableEq, Repr

/-- Dict insertion (`active_sessions[sid] = rec` overwrites). -/
def insertSession (s : List (String × SessionRec)) (sid : String)
    (rec : SessionRec) : List (String × SessionRec) :=
  (sid, rec) :: s.filter (fun p => p.1 ≠ sid)

/-- Dict deletion (`del active_sessions[sid]`, a no-op when absent). -/
def eraseSession (s : List (String × SessionRec)) (sid : String) :
    List (String × SessionRec) :=
  s.filter (fun p => p.1 ≠ sid)

/-- The loop-boundary check of `monitor_location`:
`session_id in active_sessions and active_sessions[session_id]['active']`. -/
def sessionActive (s : List (String × SessionRec)) (sid : String) : Bool :=
  match s.find? (fun p => p.1 = sid) with
  | some p => p.2.active
  | none => false

/-- Increment `active_sessions[sid]['update_count'] += 1` under the lock, guarded by
`if session_id in active_sessions`. -/
def bumpCount (s : List (String × SessionRec)) (sid : String) :
    List (String × SessionRec) :=
  s.map (fun p => if p.1 = sid then (p.1, { p.2 with update_count := p.2.update_count + 1 }) else p)

/-- One atomic transition of the registry: a `start_monitoring` handler run
(accepted, i.e. both coordinates truthy), a `stop_monitoring` or
`disconnect` handler run, or one loop-boundary action of a live
`monitor_location` thread (exit when the record is gone or inactive,
otherwise one scoring iteration). -/
inductive RegStep : RegState → RegState → Prop where
  | start (s : RegState) (sid : String) (lat lon : ℚ) (cc : String)
      (hlat : lat ≠ 0) (hlon : lon ≠ 0) :
      RegStep s ⟨insertSession s.sessions sid ⟨true, lat, lon, cc, 0⟩, sid :: s.tasks⟩
  | stop (s : RegState) (sid : String) :
      RegStep s ⟨eraseSession s.sessions sid, s.tasks⟩
  | disconnect (s : RegState) (sid : String) :
      RegStep s ⟨eraseSession s.sessions sid, s.tasks⟩
  | taskExit (s : RegState) (sid : String)
      (hmem : sid ∈ s.tasks) (hdead : sessionActive s.sessions sid = false) :
      RegStep s ⟨s.sessions, s.tasks.erase sid⟩
  | taskIterate (s : RegState) (sid : String)
      (hmem : sid ∈ s.tasks) (hlive : sessionActive s.sessions sid = true) :
      RegStep s ⟨bumpCount s.sessions sid, s.tasks⟩

/-- The empty initial state (`active_sessions = {}`, no threads). -/
def initReg : RegState := ⟨[], []⟩

/-- Registry states reachable from startup. -/
def ReachableReg (s : RegState) : Prop := Relation.ReflTransGen RegStep initReg s

/-- The same transition system with `start` guarded so that it is never
invoked for a session id that still has a live thread. -/
inductive RegStepGuarded : RegState → RegState → Prop where
  | start (s : RegState) (sid : String) (lat lon : ℚ) (cc : String)
      (hlat : lat ≠ 0) (hlon : lon ≠ 0) (hfresh : s.tasks.count sid = 0) :
      RegStepGuarded s ⟨insertSession s.sessions sid ⟨true, lat, lon, cc, 0⟩, sid :: s.tasks⟩
  | stop (s : RegState) (sid : String) :
      RegStepGuarded s ⟨eraseSession s.sessions sid, s.tasks⟩
  | disconnect (s : RegState) (sid : String) :
      RegStepGuarded s ⟨eraseSession s.sessions sid, s.tasks⟩
  | taskExit (s : RegState) (sid : String)
      (hmem : sid ∈ s.tasks) (hdead : sessionActive s.sessions sid = false) :
      RegStepGuarded s ⟨s.sessions, s.tasks.erase sid⟩
  | taskIterate (s : RegState) (sid : String)
      (hmem : sid ∈ s.tasks) (hlive : sessionActive s.sessions sid = true) :
      RegStepGuarded s ⟨bumpCount s.sessions sid, s.tasks⟩

/-- Registry states reachable when no start ever targets a session id with a
live thread. -/
def ReachableRegGuarded (s : RegState) : Prop :=
  Relation.ReflTransGen RegStepGuarded initReg s

/-! ## `calculate_distance` and `get_nearby_places` over the reals

The haversine code uses `math` trigonometry, so this part of the embedding
lives in `ℝ` and is noncomputable.  Python's `float('inf')` sentinel is the
`⊤` of `EReal`. -/

noncomputable section RealGeo

open Classical in
/-- Python `math.radians`. -/
noncomputable def radians (x : ℝ) : ℝ := x * Real.pi / 180

open Classical in
/-- Python `math.atan2(y, x)`. -/
noncomputable def atan2 (y x : ℝ) : ℝ :=
  if 0 < x then Real.arctan (y / x)
  else if x < 0 then
    (if 0 ≤ y then Real.arctan (y / x) + Real.pi else Real.arctan (y / x) - Real.pi)
  else if 0 < y then Real.pi / 2
  else if y < 0 then -(Real.pi / 2)
  else 0

open Classical in
/-- Function `calculate_distance(lat1, lon1, lat2, lon2)`: the haversine distance on
radius 6371 km.  `math.sqrt` raises on a negative argument and the `except`
handler converts that into `float('inf')`; over exact reals that branch is
the guard below. -/
noncomputable def calculate_distance (lat1 lon1 lat2 lon2 : ℝ) : EReal :=
  let R : ℝ := 6371
  let φ1 := radians lat1
  let φ2 := radians lat2
  let Δφ := radians (lat2 - lat1)
  let Δlam := radians (lon2 - lon1)
  let a := Real.sin (Δφ / 2) ^ 2 + Real.cos φ1 * Real.cos φ2 * Real.sin (Δlam / 2) ^ 2
  if a < 0 ∨ 1 - a < 0 then (⊤ : EReal)
  else ((R * 2 * atan2 (Real.sqrt a) (Real.sqrt (1 - a)) : ℝ) : EReal)

/-- One raw element of an Overpass response: direct coordinates, centroid
coordinates, and an optional name tag. -/
structure OsmElement where
  lat : Option ℝ
  lon : Option ℝ
  center_lat : Option ℝ
  center_lon : Option ℝ
  name : Option String

/-- A place record over the reals, as assembled by `get_nearby_places`. -/
structure PlaceR where
  name : String
  type : String
  distance : ℝ
  latitude : ℝ
  longitude : ℝ

/-- Python truthiness of an optional float: `None` and `0` are falsy. -/
def floatTruthy : Option ℝ → Prop
  | none => False
  | some v => v ≠ 0

open Classical in
/-- Python's `x or y` on optional floats: `y` when `x` is falsy. -/
noncomputable def pyOr (x y : Option ℝ) : Option ℝ := if floatTruthy x then x else y

/-- Resolution `elem.get('lat') or elem.get('center', {}).get('lat')`. -/
noncomputable def resolvedLat (e : OsmElement) : Option ℝ := pyOr e.lat e.center_lat

/-- Resolution `elem.get('lon') or elem.get('center', {}).get('lon')`. -/
noncomputable def resolvedLon (e : OsmElement) : Option ℝ := pyOr e.lon e.center_lon

/-- Python `str.title()` for the default place name. -/
def pyTitleAux : Bool → List Char → List Char
  | _, [] => []
  | prevAlpha, c :: cs =>
    (if c.isAlpha then (if prevAlpha then c.toLower else c.toUpper) else c) ::
      pyTitleAux c.isAlpha cs

def pyTitle (s : String) : String := String.mk (pyTitleAux false s.data)

/-- Rounding `round(dist, 2)` over the reals (banker's rounding as in `pyRound`). -/
noncomputable def roundHalfEvenR (x : ℝ) : ℤ :=
  if x - ⌊x⌋ < 1/2 then ⌊x⌋
  else if 1/2 < x - ⌊x⌋ then ⌊x⌋ + 1
  else if ⌊x⌋ % 2 = 0 then ⌊x⌋ else ⌊x⌋ + 1

noncomputable def pyRoundR (x : ℝ) (nd : ℕ) : ℝ := (roundHalfEvenR (x * 10 ^ nd) : ℝ) / 10 ^ nd

open Classical in
/-- The loop body of `get_nearby_places` for one element: skip it when the
resolved coordinates are falsy or the distance came out infinite, otherwise
build the place record. -/
noncomputable def processElem (lat lon : ℝ) (place_type : String) (elem : OsmElement) :
    Option PlaceR :=
  if floatTruthy (resolvedLat elem) ∧ floatTruthy (resolvedLon elem) then
    match resolvedLat elem, resolvedLon elem with
    | some e_lat, some e_lon =>
      let dist := calculate_distance lat lon e_lat e_lon
      if dist = ⊤ then none
      else
        some
          { name := elem.name.getD (pyTitle place_type)
            type := place_type
            distance := pyRoundR dist.toReal 2
            latitude := e_lat
            longitude := e_lon }
    | _, _ => none
  else none

open Classical in
/-- Stable insertion into a distance-sorted list. -/
noncomputable def insertByDistance (p : PlaceR) : List PlaceR → List PlaceR
  | [] => [p]
  | q :: qs =>
    if p.distance ≤ q.distance then p :: q :: qs
    else q :: insertByDistance p qs

/-- Sorting `sorted(places, key=lambda x: x['distance'])` (a stable ascending sort). -/
noncomputable def sortByDistance : List PlaceR → List PlaceR
  | [] => []
  | p :: ps => insertByDistance p (sortByDistance ps)

/-- The category table of `get_nearby_places`; only membership matters once
the response is in hand. -/
def knownPlaceTypes : List String :=
  ["hospital", "police", "bus_stop", "train", "activity", "infrastructure"]

/-- Function `get_nearby_places(lat, lon, place_type, radius)`.  The Overpass call is
an oracle: `fetched` is what `fetch_osm_data` returned for the built query. -/
noncomputable def get_nearby_places (lat lon : ℝ) (place_type : String) (_radius : ℤ)
    (fetched : List OsmElement × Bool) : List PlaceR × Bool :=
  if place_type ∉ knownPlaceTypes then ([], false)
  else if fetched.2 = false then ([], false)
  else (sortByDistance (fetched.1.filterMap (processElem lat lon place_type)), true)

end RealGeo

/-! ## Structural validity of a report (spec §3) -/

/-- Modelled from the spec: the data-model ranges of §3 — score in `[0,100]`,
rating drawn from the six rating strings, confidence in `[0,85]`, and each
breakdown component in `[0,100]`. -/
def validSafetyReport (r : SafetyReport) : Prop :=
  0 ≤ r.score ∧ r.score ≤ 100 ∧
  r.rating ∈ (["SAFE", "MODERATE", "CAUTION", "HIGH RISK",
    "SERVICE UNAVAILABLE", "ERROR"] : List String) ∧
  0 ≤ r.confidence ∧ r.confidence ≤ 85 ∧
  0 ≤ r.breakdown.temporal_risk ∧ r.breakdown.temporal_risk ≤ 100 ∧
  0 ≤ r.breakdown.emergency_proximity ∧ r.breakdown.emergency_proximity ≤ 100 ∧
  0 ≤ r.breakdown.population_density ∧ r.breakdown.population_density ≤ 100 ∧
  0 ≤ r.breakdown.infrastructure ∧ r.breakdown.infrastructure ≤ 100

/-! ## Bound lemmas for the score components -/

lemma pyRound_bounds {x : ℚ} (h0 : 0 ≤ x) (h1 : x ≤ 100) (nd : ℕ) :
    0 ≤ pyRound x nd ∧ pyRound x nd ≤ 100 := by
  refine ⟨pyRound_nonneg h0 nd, ?_⟩
  have := pyRound_le (n := 100) (by exact_mod_cast h1) nd
  exact_mod_cast this

lemma timeBand_fst_bounds (h : ℕ) : 0 ≤ (timeBand h).1 ∧ (timeBand h).1 ≤ 100 := by
  unfold timeBand
  split_ifs <;> norm_num

lemma emergScore_bounds (l : List Place) : 0 ≤ emergScore l ∧ emergScore l ≤ 100 := by
  unfold emergScore
  cases minDistance l with
  | none => norm_num
  | some m =>
    dsimp only
    split_ifs <;> norm_num

lemma popScore_bounds (c h : ℕ) : 0 ≤ popScore c h ∧ popScore c h ≤ 100 := by
  unfold popScore
  split_ifs <;> norm_num

lemma infraScore_bounds (c h : ℕ) : 0 ≤ infraScore c h ∧ infraScore c h ≤ 100 := by
  unfold infraScore
  split_ifs <;> norm_num

lemma finalScore_bounds (env : Env) (cc : String) :
    0 ≤ finalScore env cc ∧ finalScore env cc ≤ 100 := by
  unfold finalScore
  constructor
  · exact le_min (le_max_right _ 0) (by norm_num)
  · exact min_le_right _ _

lemma successCount_le_four (env : Env) : successCount env ≤ 4 := by
  unfold successCount
  split_ifs <;> norm_num

lemma confidenceOf_bounds (env : Env) :
    0 ≤ confidenceOf env ∧ confidenceOf env ≤ 85 := by
  unfold confidenceOf
  constructor
  · exact pyRound_nonneg (by positivity) 1
  · have hc : ((successCount env : ℚ)) ≤ 4 := by exact_mod_cast successCount_le_four env
    have harg : (successCount env : ℚ) / 4 * 85 ≤ ((85 : ℤ) : ℚ) := by
      push_cast
      linarith
    have := pyRound_le harg 1
    exact_mod_cast this

lemma ratingColor_fst_mem (x : ℚ) :
    (ratingColor x).1 ∈ (["SAFE", "MODERATE", "CAUTION", "HIGH RISK",
      "SERVICE UNAVAILABLE", "ERROR"] : List String) := by
  unfold ratingColor
  split_ifs <;> simp

/-! ## C1: total, structurally valid, faults converted to ERROR reports -/

/-- C1: every call to `calculate_safety_score` returns a structurally valid
report, and an unexpected internal fault is converted into the well-formed
ERROR report: rating "ERROR", score 0, gray color, `unavailable = ["all"]`,
and a truncated error description. -/
theorem calculate_safety_score_total_and_fault_safe
    (env : Env) (lat lon : ℚ) (cc : String) :
    validSafetyReport (calculate_safety_score env lat lon cc) ∧
      (∀ e, env.fault = some e →
        (calculate_safety_score env lat lon cc).rating = "ERROR" ∧
        (calculate_safety_score env lat lon cc).score = 0 ∧
        (calculate_safety_score env lat lon cc).color = "#999999" ∧
        (calculate_safety_score env lat lon cc).confidence = 0 ∧
        (calculate_safety_score env lat lon cc).service_status.unavailable = ["all"] ∧
        (calculate_safety_score env lat lon cc).service_status.message =
          some ("Error: " ++ e.take 100)) := by
  cases hf : env.fault with
  | some e =>
    constructor
    · simp [calculate_safety_score, hf, errorReport, validSafetyReport]
    · intro e' he'
      cases he'
      simp [calculate_safety_score, hf, errorReport]
  | none =>
    constructor
    · by_cases hg :
        ((env.hospitals.success || env.police.success) && env.activity.success) = false
      · simp [calculate_safety_score, hf, hg, degradedReport, validSafetyReport]
      · simp only [calculate_safety_score, hf, hg, if_false, validSafetyReport]
        refine ⟨?_, ?_, ?_, ?_, ?_, ?_, ?_, ?_, ?_, ?_, ?_, ?_, ?_⟩
        · exact (pyRound_bounds (finalScore_bounds env cc).1 (finalScore_bounds env cc).2 1).1
        · exact (pyRound_bounds (finalScore_bounds env cc).1 (finalScore_bounds env cc).2 1).2
        · exact ratingColor_fst_mem _
        · exact (confidenceOf_bounds env).1
        · exact (confidenceOf_bounds env).2
        · exact (pyRound_bounds (timeBand_fst_bounds env.hour).1
            (timeBand_fst_bounds env.hour).2 1).1
        · exact (pyRound_bounds (timeBand_fst_bounds env.hour).1
            (timeBand_fst_bounds env.hour).2 1).2
        · exact (pyRound_bounds (emergScore_bounds _).1 (emergScore_bounds _).2 1).1
        · exact (pyRound_bounds (emergScore_bounds _).1 (emergScore_bounds _).2 1).2
        · exact (pyRound_bounds (popScore_bounds _ _).1 (popScore_bounds _ _).2 1).1
        · exact (pyRound_bounds (popScore_bounds _ _).1 (popScore_bounds _ _).2 1).2
        · exact (pyRound_bounds (infraScore_bounds _ _).1 (infraScore_bounds _ _).2 1).1
        · exact (pyRound_bounds (infraScore_bounds _ _).1 (infraScore_bounds _ _).2 1).2
    · intro e he
      simp at he

/-! ## Concrete environments used to instantiate the theorems -/

/-- A run whose aggregation raised an unexpected internal fault. -/
def envFaulty : Env :=
  ⟨3, ⟨[], false⟩, ⟨[], false⟩, ⟨[], false⟩, ⟨[], false⟩, ⟨[], false⟩, ⟨[], false⟩,
    "ts", some "boom"⟩

/-- A run where hospital and police fetches failed but activity succeeded:
the availability gate fails on its first conjunct only. -/
def envDegraded : Env :=
  ⟨12, ⟨[], false⟩, ⟨[], false⟩, ⟨[], true⟩, ⟨[], true⟩, ⟨[], true⟩, ⟨[], true⟩,
    "ts", none⟩

/-- A fully successful noon run with one hospital 0.5 km away. -/
def envAllOk : Env :=
  ⟨12, ⟨[⟨"City Hospital", "hospital", 0.5, 10, 10⟩], true⟩, ⟨[], true⟩, ⟨[], true⟩,
    ⟨[], true⟩, ⟨[], true⟩, ⟨[], true⟩, "ts", none⟩

/-- Witness for C1 at a faulting run: the report is valid and rated ERROR. -/
theorem calculate_safety_score_total_and_fault_safe_witness :
    validSafetyReport (calculate_safety_score envFaulty 1 2 "XX") ∧
      (calculate_safety_score envFaulty 1 2 "XX").rating = "ERROR" :=
  ⟨(calculate_safety_score_total_and_fault_safe envFaulty 1 2 "XX").1,
    ((calculate_safety_score_total_and_fault_safe envFaulty 1 2 "XX").2 "boom" rfl).1⟩

/-! ## C2: the degraded report -/

/-- C2 counterexample: in `envDegraded` the activity fetch succeeded, yet the
degraded report's `unavailable` list still names `activity_data` — the list
is hard-coded, not "whichever of the two actually failed". -/
theorem degraded_unavailable_overreports :
    envDegraded.activity.success = true ∧
      "activity_data" ∈
        (calculate_safety_score envDegraded 1 2 "XX").service_status.unavailable := by
  constructor
  · rfl
  · simp [calculate_safety_score, envDegraded, degradedReport]

/-- C2 amended: whenever the availability gate fails (and no internal fault
occurred), the report is exactly the degraded form — score 0, rating
"SERVICE UNAVAILABLE", gray color, confidence 0, all-zero breakdown, the
fixed coverage message, and the `unavailable` list always equal to
`["emergency_services", "activity_data"]` regardless of which gate input
failed. -/
theorem degraded_report_exact (env : Env) (lat lon : ℚ) (cc : String)
    (hf : env.fault = none)
    (hg : ((env.hospitals.success || env.police.success) && env.activity.success) = false) :
    calculate_safety_score env lat lon cc =
      { score := 0
        rating := "SERVICE UNAVAILABLE"
        color := "#999999"
        confidence := 0
        timestamp := env.timestamp
        breakdown := ⟨0, 0, 0, 0⟩
        time_period := (timeBand env.hour).2
        service_status :=
          { overall := "Sorry, we don\x27t have services running for this location"
            status_color := "#f44336"
            unavailable := ["emergency_services", "activity_data"]
            message := some "Paddos is not available in this area yet. We\x27re working to expand our coverage!" }
        nearest := ⟨none, none, none, none⟩
        all_places := ⟨[], [], [], []⟩
        stats := ⟨0, 0, 0⟩ } := by
  simp [calculate_safety_score, hf, hg, degradedReport]

/-- Witness for the amended C2 at `envDegraded`. -/
theorem degraded_report_exact_witness :
    calculate_safety_score envDegraded 1 2 "XX" =
      degradedReport envDegraded (timeBand 12).2 :=
  degraded_report_exact envDegraded 1 2 "XX" rfl rfl

/-! ## C3: score bounds and rating bands -/

lemma ratingColor_band_iff (x : ℚ) :
    ((ratingColor x).1 = "SAFE" ↔ 75 ≤ x) ∧
    ((ratingColor x).1 = "MODERATE" ↔ 55 ≤ x ∧ x < 75) ∧
    ((ratingColor x).1 = "CAUTION" ↔ 35 ≤ x ∧ x < 55) ∧
    ((ratingColor x).1 = "HIGH RISK" ↔ x < 35) := by
  unfold ratingColor
  split_ifs with h1 h2 h3 <;>
    refine ⟨?_, ?_, ?_, ?_⟩ <;> simp <;>
    first
      | linarith
      | (intro h; linarith)
      | (constructor <;> linarith)

/-- C3: on the non-degraded, non-fault path the final score lies in
`[0, 100]`, the reported score is the final score rounded to one decimal,
and the rating is exactly the band containing the final score (boundaries
75, 55, 35 included on the high side of each band). -/
theorem final_score_in_range_and_rating_band
    (env : Env) (lat lon : ℚ) (cc : String)
    (hf : env.fault = none)
    (hg : ((env.hospitals.success || env.police.success) && env.activity.success) = true) :
    0 ≤ finalScore env cc ∧ finalScore env cc ≤ 100 ∧
    (calculate_safety_score env lat lon cc).score = pyRound (finalScore env cc) 1 ∧
    ((calculate_safety_score env lat lon cc).rating = "SAFE" ↔ 75 ≤ finalScore env cc) ∧
    ((calculate_safety_score env lat lon cc).rating = "MODERATE" ↔
      55 ≤ finalScore env cc ∧ finalScore env cc < 75) ∧
    ((calculate_safety_score env lat lon cc).rating = "CAUTION" ↔
      35 ≤ finalScore env cc ∧ finalScore env cc < 55) ∧
    ((calculate_safety_score env lat lon cc).rating = "HIGH RISK" ↔
      finalScore env cc < 35) := by
  have hb := finalScore_bounds env cc
  have hband := ratingColor_band_iff (finalScore env cc)
  refine ⟨hb.1, hb.2, ?_, ?_, ?_, ?_, ?_⟩ <;>
    simp only [calculate_safety_score, hf, hg] <;>
    simp only [Bool.true_eq_false, if_false] <;>
    first
      | rfl
      | exact hband.1
      | exact hband.2.1
      | exact hband.2.2.1
      | exact hband.2.2.2

/-- Witness for C3 at the all-successful noon run. -/
theorem final_score_in_range_and_rating_band_witness :
    0 ≤ finalScore envAllOk "XX" ∧ finalScore envAllOk "XX" ≤ 100 ∧
    (calculate_safety_score envAllOk 1 2 "XX").score = pyRound (finalScore envAllOk "XX") 1 ∧
    ((calculate_safety_score envAllOk 1 2 "XX").rating = "SAFE" ↔
      75 ≤ finalScore envAllOk "XX") ∧
    ((calculate_safety_score envAllOk 1 2 "XX").rating = "MODERATE" ↔
      55 ≤ finalScore envAllOk "XX" ∧ finalScore envAllOk "XX" < 75) ∧
    ((calculate_safety_score envAllOk 1 2 "XX").rating = "CAUTION" ↔
      35 ≤ finalScore envAllOk "XX" ∧ finalScore envAllOk "XX" < 55) ∧
    ((calculate_safety_score envAllOk 1 2 "XX").rating = "HIGH RISK" ↔
      finalScore envAllOk "XX" < 35) :=
  final_score_in_range_and_rating_band envAllOk 1 2 "XX" rfl rfl

/-! ## C6: the confidence formula -/

/-- C6: on every non-degraded path the confidence equals
`round(85 * successful_count / 4, 1)`, `successful_count` counting the four
tracked success flags (hospital, police, activity, infrastructure). -/
theorem confidence_is_success_fraction
    (env : Env) (lat lon : ℚ) (cc : String)
    (hf : env.fault = none)
    (hg : ((env.hospitals.success || env.police.success) && env.activity.success) = true) :
    (calculate_safety_score env lat lon cc).confidence =
      pyRound (85 * (successCount env : ℚ) / 4) 1 := by
  simp only [calculate_safety_score, hf, hg, Bool.true_eq_false, if_false]
  show confidenceOf env = _
  unfold confidenceOf
  congr 1
  ring

/-- Witness for C6 at the all-successful run (all four flags true). -/
theorem confidence_is_success_fraction_witness :
    (calculate_safety_score envAllOk 1 2 "XX").confidence =
      pyRound (85 * (successCount envAllOk : ℚ) / 4) 1 :=
  confidence_is_success_fraction envAllOk 1 2 "XX" rfl rfl

/-! ## C7: the country multiplier -/

lemma multiplierOf_unknown_eq_default {cc : String}
    (h : COUNTRY_BASELINES (pyUpper cc) = none) :
    multiplierOf cc = multiplierOf "DEFAULT" := by
  unfold multiplierOf
  rw [h, show pyUpper "DEFAULT" = "DEFAULT" from by decide]
  simp [COUNTRY_BASELINES]

lemma finalScore_unknown_eq_default {cc : String} (env : Env)
    (h : COUNTRY_BASELINES (pyUpper cc) = none) :
    finalScore env cc = finalScore env "DEFAULT" := by
  unfold finalScore
  rw [multiplierOf_unknown_eq_default h]

/-- C7: the country baseline multiplier enters the score exactly once,
multiplicatively, before the clamp to `[0, 100]`; and an unknown country
code produces the very same report as the explicit factor-1.00 entry
(`COUNTRY_BASELINES['DEFAULT']`). -/
theorem country_multiplier_once_and_unknown_default
    (env : Env) (lat lon : ℚ) (cc : String) :
    (env.fault = none →
      ((env.hospitals.success || env.police.success) && env.activity.success) = true →
      (calculate_safety_score env lat lon cc).score =
        pyRound (min (max (rawScore env * multiplierOf cc) 0) 100) 1) ∧
    (COUNTRY_BASELINES (pyUpper cc) = none →
      calculate_safety_score env lat lon cc =
        calculate_safety_score env lat lon "DEFAULT") := by
  constructor
  · intro hf hg
    simp only [calculate_safety_score, hf, hg, Bool.true_eq_false, if_false]
    rfl
  · intro hu
    cases hf : env.fault with
    | some e => simp [calculate_safety_score, hf]
    | none =>
      by_cases hg :
        ((env.hospitals.success || env.police.success) && env.activity.success) = false
      · simp [calculate_safety_score, hf, hg]
      · simp only [calculate_safety_score, hf, hg, if_false]
        rw [finalScore_unknown_eq_default env hu]

/-- Witness for C7 with the unknown code "XX". -/
theorem country_multiplier_once_and_unknown_default_witness :
    (calculate_safety_score envAllOk 1 2 "XX").score =
      pyRound (min (max (rawScore envAllOk * multiplierOf "XX") 0) 100) 1 ∧
    calculate_safety_score envAllOk 1 2 "XX" =
      calculate_safety_score envAllOk 1 2 "DEFAULT" :=
  ⟨(country_multiplier_once_and_unknown_default envAllOk 1 2 "XX").1 rfl rfl,
    (country_multiplier_once_and_unknown_default envAllOk 1 2 "XX").2 (by decide)⟩

/-! ## C9: the non-degraded unavailable list -/

lemma unavailableOf_of_gate (env : Env)
    (hg : ((env.hospitals.success || env.police.success) && env.activity.success) = true) :
    unavailableOf env =
      if env.infra.success = false then ["infrastructure"] else [] := by
  rcases Bool.and_eq_true_iff.mp hg with ⟨hor, hact⟩
  have hnotboth : ¬ (env.hospitals.success = false ∧ env.police.success = false) := by
    rcases Bool.or_eq_true_iff.mp hor with h | h <;> simp [h]
  simp [unavailableOf, hact, hnotboth]

/-- C9: in every non-degraded report the `unavailable` list never names
`emergency_services` or `activity_data`; its members can only be
`infrastructure`. -/
theorem nondegraded_unavailable_only_infrastructure
    (env : Env) (lat lon : ℚ) (cc : String)
    (hf : env.fault = none)
    (hg : ((env.hospitals.success || env.police.success) && env.activity.success) = true) :
    "emergency_services" ∉
        (calculate_safety_score env lat lon cc).service_status.unavailable ∧
      "activity_data" ∉
        (calculate_safety_score env lat lon cc).service_status.unavailable ∧
      ∀ x ∈ (calculate_safety_score env lat lon cc).service_status.unavailable,
        x = "infrastructure" := by
  simp only [calculate_safety_score, hf, hg, Bool.true_eq_false, if_false]
  show "emergency_services" ∉ unavailableOf env ∧ "activity_data" ∉ unavailableOf env ∧ _
  rw [unavailableOf_of_gate env hg]
  by_cases hi : env.infra.success = false <;> simp [hi]

/-- Witness for C9 at the all-successful run. -/
theorem nondegraded_unavailable_only_infrastructure_witness :
    "emergency_services" ∉
        (calculate_safety_score envAllOk 1 2 "XX").service_status.unavailable ∧
      "activity_data" ∉
        (calculate_safety_score envAllOk 1 2 "XX").service_status.unavailable ∧
      ∀ x ∈ (calculate_safety_score envAllOk 1 2 "XX").service_status.unavailable,
        x = "infrastructure" :=
  nondegraded_unavailable_only_infrastructure envAllOk 1 2 "XX" rfl rfl

/-! ## C4: the POST safety endpoint rejects the equator/prime meridian -/

/-- C4: `{latitude: 0, longitude: 10}` is inside the documented ranges, yet
`api_safety` returns the 400 "Invalid coordinates" rejection, because the
presence check `not (lat and lon)` treats the number `0` as missing. -/
theorem api_safety_rejects_zero_latitude :
    api_safety envAllOk ⟨some 0, some 10, none⟩ =
        ApiSafetyResult.badRequest "Invalid coordinates" ∧
      (-90 : ℚ) ≤ 0 ∧ (0 : ℚ) ≤ 90 ∧ (-180 : ℚ) ≤ 10 ∧ (10 : ℚ) ≤ 180 := by
  refine ⟨?_, by norm_num, by norm_num, by norm_num, by norm_num⟩
  simp [api_safety]

/-! ## C5: live monitor tasks per session id -/

def recA : SessionRec := ⟨true, 1, 1, "XX", 0⟩

/-- The state reached by two `start_monitoring` events for the same id. -/
def doubleStartState : RegState := ⟨[("a", recA)], ["a", "a"]⟩

def singleStartState : RegState := ⟨[("a", recA)], ["a"]⟩

/-- C5 counterexample: a second `start_monitoring` for an id that is already
being monitored is reachable and leaves two live tasks bound to that id —
the handler overwrites the record and spawns a fresh thread without
stopping the old one, and the old thread's boundary check still sees an
active record. -/
theorem registry_double_start_two_live_tasks :
    ReachableReg doubleStartState ∧ doubleStartState.tasks.count "a" = 2 := by
  constructor
  · have h1 : RegStep initReg singleStartState :=
      RegStep.start initReg "a" 1 1 "XX" (by norm_num) (by norm_num)
    have h2 : RegStep singleStartState doubleStartState :=
      RegStep.start singleStartState "a" 1 1 "XX" (by norm_num) (by norm_num)
    exact Relation.ReflTransGen.tail (Relation.ReflTransGen.single h1) h2
  · decide

/-- C5 amended: the at-most-one-live-task invariant holds on every trace in
which `start_monitoring` is only ever invoked for a session id with no live
task; a start for an already-monitored id breaks it (see the
counterexample). -/
theorem registry_guarded_at_most_one_task
    (s : RegState) (hs : ReachableRegGuarded s) (sid : String) :
    s.tasks.count sid ≤ 1 := by
  induction hs with
  | refl => simp [initReg]
  | tail _ hbc ih =>
    cases hbc with
    | start sid' lat lon cc hlat hlon hfresh =>
      dsimp only at ih ⊢
      rw [List.count_cons]
      by_cases h : sid = sid'
      · subst h
        simp [hfresh]
      · simpa [h, Ne.symm h] using ih
    | stop sid' => exact ih
    | disconnect sid' => exact ih
    | taskExit sid' hmem hdead =>
      exact le_trans (List.Sublist.count_le (List.erase_sublist _ _) sid) ih
    | taskIterate sid' hmem hlive => exact ih

/-- Witness for the amended C5: after one guarded start, the id has exactly
at most one live task. -/
theorem registry_guarded_at_most_one_task_witness :
    singleStartState.tasks.count "a" ≤ 1 :=
  registry_guarded_at_most_one_task singleStartState
    (Relation.ReflTransGen.single
      (RegStepGuarded.start initReg "a" 1 1 "XX" (by norm_num) (by norm_num) (by decide)))
    "a"

/-! ## C8: `calculate_distance` has no range validation -/

/-- In exact real arithmetic the haversine intermediate `a` always lies in
`[0, 1]`, so the domain-error branch (the `+inf` sentinel) is unreachable:
`calculate_distance` returns an ordinary real for every real input,
in range or not. -/
lemma calculate_distance_ne_top_aux (lat1 lon1 lat2 lon2 : ℝ) :
    calculate_distance lat1 lon1 lat2 lon2 ≠ (⊤ : EReal) := by
  unfold calculate_distance
  dsimp only
  have hΔ : radians (lat2 - lat1) = radians lat2 - radians lat1 := by
    unfold radians
    ring
  rw [hΔ]
  set φ1 := radians lat1
  set φ2 := radians lat2
  set t := Real.sin (radians (lon2 - lon1) / 2) ^ 2 with ht
  set s := Real.sin ((φ2 - φ1) / 2) ^ 2 with hs
  have hs0 : 0 ≤ s := sq_nonneg _
  have hs1 : s ≤ 1 := Real.sin_sq_le_one _
  have ht0 : 0 ≤ t := sq_nonneg _
  have ht1 : t ≤ 1 := Real.sin_sq_le_one _
  have hs_eq : s = (1 - Real.cos (φ2 - φ1)) / 2 := by
    have h2 := Real.sin_sq_eq_half_sub ((φ2 - φ1) / 2)
    have h3 : 2 * ((φ2 - φ1) / 2) = φ2 - φ1 := by ring
    rw [h3] at h2
    rw [hs, h2]
    ring
  have hcsub := Real.cos_sub φ2 φ1
  have hcadd := Real.cos_add φ1 φ2
  have hc1 : -1 ≤ Real.cos (φ1 + φ2) := Real.neg_one_le_cos _
  have hc2 : Real.cos (φ1 + φ2) ≤ 1 := Real.cos_le_one _
  have hsc0 : 0 ≤ s + Real.cos φ1 * Real.cos φ2 := by
    rw [hs_eq, hcsub]
    nlinarith [hc1, hcadd]
  have hsc1 : s + Real.cos φ1 * Real.cos φ2 ≤ 1 := by
    rw [hs_eq, hcsub]
    nlinarith [hc2, hcadd]
  have h0 : 0 ≤ s + Real.cos φ1 * Real.cos φ2 * t := by
    nlinarith [mul_nonneg (by linarith : (0:ℝ) ≤ 1 - t) hs0, mul_nonneg ht0 hsc0]
  have h1 : s + Real.cos φ1 * Real.cos φ2 * t ≤ 1 := by
    nlinarith [mul_nonneg (by linarith : (0:ℝ) ≤ 1 - t) (by linarith : (0:ℝ) ≤ 1 - s),
      mul_nonneg ht0 (by linarith : (0:ℝ) ≤ 1 - (s + Real.cos φ1 * Real.cos φ2))]
  rw [if_neg]
  · exact EReal.coe_ne_top _
  · push_neg
    constructor <;> linarith

/-- C8 counterexample: latitude 91 is out of range, yet `calculate_distance`
performs no range check — on identical out-of-range points it returns the
ordinary haversine value 0, not the `+inf` sentinel. -/
theorem calculate_distance_out_of_range_returns_value :
    (90 : ℝ) < 91 ∧
      calculate_distance 91 0 91 0 = ((0 : ℝ) : EReal) ∧
      ((0 : ℝ) : EReal) ≠ (⊤ : EReal) := by
  refine ⟨by norm_num, ?_, EReal.coe_ne_top 0⟩
  unfold calculate_distance
  dsimp only
  norm_num [radians, atan2, Real.arctan_zero, Real.sqrt_zero, Real.sqrt_one]

/-- C8 amended: `calculate_distance` never raises — every fault is caught —
but it validates nothing: over the reals it returns an ordinary (finite)
haversine value for every input, out of range or not; the `+inf` sentinel
branch is only reachable through floating-point edge cases (non-finite
inputs), which the exact-real model has no inhabitants for. -/
theorem calculate_distance_total_never_sentinel (lat1 lon1 lat2 lon2 : ℝ) :
    calculate_distance lat1 lon1 lat2 lon2 ≠ (⊤ : EReal) :=
  calculate_distance_ne_top_aux lat1 lon1 lat2 lon2

/-! ## C10: falsy resolved coordinates are dropped -/

/-- An element whose resolved latitude or longitude is missing or exactly 0
(Python's falsy values for the `if not (e_lat and e_lon)` check). -/
def badCoordElem (e : OsmElement) : Prop :=
  resolvedLat e = none ∨ resolvedLat e = some 0 ∨
    resolvedLon e = none ∨ resolvedLon e = some 0

/-- C10: an element with a missing-or-zero resolved coordinate contributes
nothing to `get_nearby_places` — removing it from the response leaves the
result unchanged — even though 0 is a legitimate coordinate on the equator
or prime meridian. -/
theorem get_nearby_places_drops_falsy_coords
    (lat lon : ℝ) (pt : String) (radius : ℤ) (xs ys : List OsmElement)
    (e : OsmElement) (he : badCoordElem e) :
    get_nearby_places lat lon pt radius (xs ++ e :: ys, true) =
      get_nearby_places lat lon pt radius (xs ++ ys, true) := by
  have hnone : processElem lat lon pt e = none := by
    unfold processElem
    rw [if_neg]
    rintro ⟨h1, h2⟩
    rcases he with h | h | h | h
    · rw [h] at h1
      exact h1
    · rw [h] at h1
      exact h1 rfl
    · rw [h] at h2
      exact h2
    · rw [h] at h2
      exact h2 rfl
  unfold get_nearby_places
  by_cases hpt : pt ∈ knownPlaceTypes <;>
    simp [hpt, List.filterMap_append, List.filterMap_cons, hnone]

/-- The element `{lat: 0, lon: 10}`: latitude present but falsy. -/
def badElem : OsmElement := ⟨some 0, some 10, none, none, none⟩

/-- Witness for C10: the zero-latitude element is dropped, and the resulting
fetch is the well-formed empty success. -/
theorem get_nearby_places_drops_falsy_coords_witness :
    badCoordElem badElem ∧
      get_nearby_places 0 0 "hospital" 5000 ([badElem], true) =
        get_nearby_places 0 0 "hospital" 5000 ([], true) ∧
      get_nearby_places 0 0 "hospital" 5000 ([], true) = ([], true) := by
  have hb : badCoordElem badElem :=
    Or.inl (by simp [badElem, resolvedLat, pyOr, floatTruthy])
  refine ⟨hb,
    get_nearby_places_drops_falsy_coords 0 0 "hospital" 5000 [] [] badElem hb, ?_⟩
  simp [get_nearby_places, knownPlaceTypes, sortByDistance]

end Paddos
